import Mathlib

/-!
Shallow embedding of the med-ai-navigator pipeline core.

Sources embedded (translated from the Python source, definition by definition):
- `src/media/agents/speciaized_agents.py` : SymptomAgent, DocAgent, RiskAgent, TriageAgent
- `src/media/agents/diagnosis_agent.py`   : DiagnosisAgent fallback engine
- `src/media/observability/metrics.py`    : MetricsService
- `src/media/memory/session_service.py`   : MemoryBank (session history and patient facts)
- `src/media/orchestrator.py`             : MedAIOrchestrator.process_patient_query

The text-completion provider is external; each agent takes the outcome of its
provider-and-parse step as an `Except String` argument (an already-parsed record
with optional fields, mirroring `parsed.get(key, default)`, or the failure text).
-/

/-- Python `l[-n:]`: the last `n` elements of a list (whole list when shorter). -/
def lastN {α : Type} (n : Nat) (l : List α) : List α :=
  l.drop (l.length - n)

/-- Is `pat` an initial segment of `t`? (used to implement substring search) -/
def startsWithChars : List Char → List Char → Bool
  | [], _ => true
  | _ :: _, [] => false
  | c :: cs, d :: ds => c = d && startsWithChars cs ds

/-- Does `t` contain `pat` as a contiguous segment? -/
def hasSubChars : List Char → List Char → Bool
  | [], pat => pat.isEmpty
  | t@(_ :: rest), pat => startsWithChars pat t || hasSubChars rest pat

/-- Python `pat in s` on strings: substring containment. -/
def strHasSub (s pat : String) : Bool :=
  hasSubChars s.data pat.data

/-- Python `not text or not text.strip()`: empty or whitespace-only. -/
def isBlank (s : String) : Bool :=
  s.data.all (fun c => c.isWhitespace)

/-- Python `text[:n]`: the first `n` code points. -/
def strTake (s : String) (n : Nat) : String :=
  String.mk (s.data.take n)

/-- Python `s.lower()` (code-point-wise lower casing). -/
def lowerString (s : String) : String :=
  String.mk (s.data.map Char.toLower)

/-- Python `sep.join(xs)`. -/
def joinWith (sep : String) : List String → String
  | [] => ""
  | [x] => x
  | x :: xs => x ++ sep ++ joinWith sep xs

/-! ## Data model (dictionaries returned by the agents) -/

/-- Return value of `SymptomAgent.run`. -/
structure SymptomData where
  symptoms : List String
  duration : String
  severity : String
  error : Option String := none
  deriving DecidableEq

/-- Return value of `DocAgent.run`. -/
structure HistoryData where
  conditions : List String
  medications : List String
  vitals : List (String × String)
  error : Option String := none
  deriving DecidableEq

/-- Return value of `RiskAgent.run`. -/
structure RiskData where
  score : Int
  category : String
  reasoning : String
  deriving DecidableEq

/-- Return value of `TriageAgent.run`; `warning` is an optional key. -/
structure TriageData where
  action : String
  timeframe : String
  specialist : String
  warning : Option String := none
  deriving DecidableEq

/-- One medication entry of a diagnosis suggestion. -/
structure Medication where
  name : String
  type : String
  purpose : String
  dosage : String
  deriving DecidableEq

/-- One entry of `possible_diagnoses`. -/
structure DiagnosisEntry where
  condition : String
  likelihood : String
  explanation : String
  medications : List Medication
  when_to_see_doctor : String
  deriving DecidableEq

/-- Return value of the Diagnosis agent. -/
structure DiagnosisData where
  possible_diagnoses : List DiagnosisEntry
  general_recommendations : String
  deriving DecidableEq

/-- One organic result of `WebSearchTool.search`. -/
structure WebResultItem where
  title : String
  link : String
  snippet : String
  position : Int
  deriving DecidableEq

/-- Return value of `WebSearchTool.search`. -/
structure SearchResult where
  success : Bool
  query : Option String := none
  results : List WebResultItem := []
  message : Option String := none
  error : Option String := none
  deriving DecidableEq

/-! ## Agents (speciaized_agents.py)

Each `run` takes the provider-and-parse outcome: `.ok parsed` models a completion
that was parsed into a JSON object (fields optional, as `parsed.get(k, default)`),
`.error e` models any provider failure or parse failure routed to the fallback. -/

/-- The parsed JSON object of a SymptomAgent completion (each key may be absent). -/
structure SymptomParsed where
  symptoms : Option (List String) := none
  duration : Option String := none
  severity : Option String := none

namespace SymptomAgent

/-- `SymptomAgent.run` (speciaized_agents.py lines 12-67); the returned Bool
records whether the completion provider was consulted. -/
def run (text : String) (prov : Except String SymptomParsed) : SymptomData × Bool :=
  if isBlank text then
    (⟨[], "unknown", "Low", none⟩, false)
  else
    match prov with
    | .ok parsed =>
        (⟨parsed.symptoms.getD [], parsed.duration.getD "unknown",
          parsed.severity.getD "Low", none⟩, true)
    | .error e =>
        (⟨if text = "" then [] else [strTake text 50], "unknown", "Medium", some e⟩, true)

end SymptomAgent

/-- The parsed JSON object of a DocAgent completion. -/
structure DocParsed where
  conditions : Option (List String) := none
  medications : Option (List String) := none
  vitals : Option (List (String × String)) := none

namespace DocAgent

/-- `DocAgent.run` (speciaized_agents.py lines 72-119); the returned Bool
records whether the completion provider was consulted. -/
def run (doc_text : String) (prov : Except String DocParsed) : HistoryData × Bool :=
  if isBlank doc_text then
    (⟨[], [], [], none⟩, false)
  else
    match prov with
    | .ok parsed =>
        (⟨parsed.conditions.getD [], parsed.medications.getD [],
          parsed.vitals.getD [], none⟩, true)
    | .error e =>
        (⟨[], [], [], some e⟩, true)

end DocAgent

/-- The parsed JSON object of a RiskAgent completion. -/
structure RiskParsed where
  score : Option Int := none
  category : Option String := none
  reasoning : Option String := none

namespace RiskAgent

/-- `RiskAgent.run` (speciaized_agents.py lines 124-178). -/
def run (symptoms_data : SymptomData) (_history_data : HistoryData)
    (prov : Except String RiskParsed) : RiskData :=
  match prov with
  | .ok parsed =>
      ⟨parsed.score.getD 5, parsed.category.getD "Medium",
       parsed.reasoning.getD "Standard assessment"⟩
  | .error e =>
      let base_score : Int :=
        if symptoms_data.severity = "Low" then 3
        else if symptoms_data.severity = "Medium" then 6
        else if symptoms_data.severity = "High" then 9
        else 5
      ⟨base_score, if base_score < 7 then "Medium" else "High",
       "Fallback calculation: " ++ e⟩

end RiskAgent

/-- The parsed JSON object of a TriageAgent completion. -/
structure TriageParsed where
  action : Option String := none
  timeframe : Option String := none
  specialist : Option String := none

namespace TriageAgent

/-- `TriageAgent.run` (speciaized_agents.py lines 183-251). -/
def run (risk_data : RiskData) (_symptoms : SymptomData)
    (prov : Except String TriageParsed) : TriageData :=
  match prov with
  | .ok parsed =>
      ⟨parsed.action.getD "Schedule Appointment", parsed.timeframe.getD "Next available",
       parsed.specialist.getD "General Practice", none⟩
  | .error e =>
      if 8 ≤ risk_data.score then
        ⟨"Call 911", "Immediate", "Emergency Medicine", some ("Fallback logic used: " ++ e)⟩
      else if 5 ≤ risk_data.score then
        ⟨"Schedule Appointment", "24 hours", "General Practice",
         some ("Fallback logic used: " ++ e)⟩
      else
        ⟨"Home Care", "Next available", "General Practice",
         some ("Fallback logic used: " ++ e)⟩

end TriageAgent

/-! ## Diagnosis agent fallback engine (diagnosis_agent.py lines 137-215) -/

/-- Keywords of the cold group (diagnosis_agent.py line 146). -/
def coldKeywords : List String := ["cough", "sneeze", "runny nose", "congestion"]

/-- Keywords of the flu group (diagnosis_agent.py line 174). -/
def fluKeywords : List String := ["fever", "chills", "body ache", "fatigue"]

/-- The "Common Cold" fallback entry (diagnosis_agent.py lines 147-172). -/
def commonColdEntry : DiagnosisEntry :=
  { condition := "Common Cold"
    likelihood := "Medium"
    explanation := "Symptoms suggest a common cold"
    medications :=
      [⟨"Acetaminophen (Tylenol)", "OTC", "Fever and pain relief", "As directed on package"⟩,
       ⟨"Ibuprofen (Advil)", "OTC", "Fever and pain relief", "As directed on package"⟩,
       ⟨"Decongestants", "OTC", "Nasal congestion", "As directed on package"⟩]
    when_to_see_doctor := "If symptoms persist for more than 10 days or worsen" }

/-- The "Influenza (Flu)" fallback entry (diagnosis_agent.py lines 175-194). -/
def influenzaEntry : DiagnosisEntry :=
  { condition := "Influenza (Flu)"
    likelihood := "Medium"
    explanation := "Symptoms may indicate influenza"
    medications :=
      [⟨"Oseltamivir (Tamiflu)", "Prescription", "Antiviral treatment", "As prescribed by doctor"⟩,
       ⟨"Acetaminophen or Ibuprofen", "OTC", "Fever and body aches", "As directed on package"⟩]
    when_to_see_doctor :=
      "Seek medical attention if high fever persists or breathing difficulties occur" }

/-- The generic "General Symptoms" fallback entry (diagnosis_agent.py lines 197-210). -/
def generalSymptomsEntry : DiagnosisEntry :=
  { condition := "General Symptoms"
    likelihood := "Low"
    explanation := "Insufficient information for specific diagnosis"
    medications :=
      [⟨"Consult healthcare provider", "Medical Advice", "Proper diagnosis needed", "N/A"⟩]
    when_to_see_doctor := "Consult a healthcare professional for proper evaluation" }

/-- The fixed safety message of the fallback (diagnosis_agent.py line 214). -/
def fallbackRecommendation : String :=
  "Rest, stay hydrated, and monitor symptoms. Seek medical attention if symptoms worsen."

/-- `symptom_lower` (diagnosis_agent.py lines 139-141): the lower-cased
space-joined symptom strings. -/
def symptomLowerText (symptoms : SymptomData) : String :=
  lowerString (joinWith " " symptoms.symptoms)

/-- `any(word in symptom_lower for word in [cold keywords])`
(diagnosis_agent.py line 146). -/
def coldHit (symptoms : SymptomData) : Bool :=
  coldKeywords.any (fun w => strHasSub (symptomLowerText symptoms) w)

/-- `any(word in symptom_lower for word in [flu keywords])`
(diagnosis_agent.py line 174). -/
def fluHit (symptoms : SymptomData) : Bool :=
  fluKeywords.any (fun w => strHasSub (symptomLowerText symptoms) w)

namespace DiagnosisAgent

/-- `DiagnosisAgent._fallback_diagnosis` (diagnosis_agent.py lines 137-215):
keyword rule engine over the lower-cased space-joined symptom strings; the
cold entry (if hit), then the flu entry (if hit), then the generic entry if
nothing hit. -/
def fallback_diagnosis (symptoms : SymptomData) : DiagnosisData :=
  let diagnoses :=
    (if coldHit symptoms then [commonColdEntry] else [])
      ++
    (if fluHit symptoms then [influenzaEntry] else [])
  let diagnoses := if diagnoses = [] then [generalSymptomsEntry] else diagnoses
  ⟨diagnoses, fallbackRecommendation⟩

end DiagnosisAgent

/-! ## Metrics service (observability/metrics.py)

We model the fields that the specified behavior reads: the per-component latency
window, the mis-triage counter, the bias-detected counter, and the
`metrics["bias_checks_total"]` counter. -/

structure MetricsService where
  latency_data : String → List ℚ
  mistriage_count : Nat
  bias_detected_count : Nat
  bias_checks_total : Nat

namespace MetricsService

/-- The freshly constructed singleton (metrics.py lines 14-22). -/
def init : MetricsService :=
  ⟨fun _ => [], 0, 0, 0⟩

/-- `MetricsService.log_latency` (metrics.py lines 24-39); `duration` stands for
`time.time() - start_time`. -/
def log_latency (ms : MetricsService) (component : String) (duration : ℚ) : MetricsService :=
  let l := ms.latency_data component ++ [duration]
  let l := if 100 < l.length then lastN 100 l else l
  { ms with latency_data := fun c => if c = component then l else ms.latency_data c }

/-- `MetricsService.log_mistriage` (metrics.py lines 41-44). -/
def log_mistriage (ms : MetricsService) : MetricsService :=
  { ms with mistriage_count := ms.mistriage_count + 1 }

/-- `MetricsService.log_bias_check` (metrics.py lines 46-56). -/
def log_bias_check (ms : MetricsService) (detected : Bool) : MetricsService :=
  let ms := if detected then
      { ms with bias_detected_count := ms.bias_detected_count + 1 } else ms
  { ms with bias_checks_total := ms.bias_checks_total + 1 }

/-- `MetricsService.get_average_latency` (metrics.py lines 58-70). -/
def get_average_latency (ms : MetricsService) (component : String) : ℚ :=
  if ms.latency_data component = [] then 0
  else (ms.latency_data component).sum / (ms.latency_data component).length

end MetricsService

/-! ## Memory bank: session history (memory/session_service.py lines 17-59) -/

/-- One stored message of a session history. -/
structure SessionMsg where
  role : String
  content : String
  timestamp : String
  deriving DecidableEq

/-- The `_sessions` mapping: session id to message list (absent id = empty list,
as `self._sessions.get(session_id, [])`). -/
def Sessions : Type := String → List SessionMsg

/-- The empty `_sessions` store. -/
def Sessions.empty : Sessions := fun _ => []

/-- `MemoryBank.get_history` (session_service.py lines 17-27). -/
def get_history (s : Sessions) (session_id : String) : List SessionMsg :=
  s session_id

/-- `MemoryBank.add_interaction` (session_service.py lines 29-59): append the
user and assistant messages, then compact to the last 10 once the list
exceeds `_max_session_messages = 20`; `now` stands for
`datetime.now().isoformat()`. -/
def add_interaction (s : Sessions) (session_id user_input ai_output now : String) : Sessions :=
  let l := s session_id ++
    [⟨"user", user_input, now⟩, ⟨"assistant", ai_output, now⟩]
  let l := if 20 < l.length then lastN 10 l else l
  fun sid => if sid = session_id then l else s sid

/-! ## Memory bank: patient facts, pipeline view (session_service.py lines 61-73)

For the pipeline we model `_facts` extensionally as a curried mapping
(patient id, fact key) to stored value; `store_patient_fact` writes the value
and its companion `<key>_timestamp`. -/

/-- A value storable as a patient fact by the pipeline. -/
inductive FactValue where
  | sym (s : SymptomData)
  | hist (h : HistoryData)
  | web (w : SearchResult)
  | diag (d : DiagnosisData)
  | ts (iso : String)
  deriving DecidableEq

/-- The `_facts` mapping, extensional view. -/
def FactMap : Type := String → String → Option FactValue

/-- The empty `_facts` store. -/
def FactMap.empty : FactMap := fun _ _ => none

/-- `MemoryBank.store_patient_fact` (session_service.py lines 61-73); `now`
stands for `datetime.now().isoformat()`. -/
def store_patient_fact (facts : FactMap) (patient_id key : String) (value : FactValue)
    (now : String) : FactMap :=
  fun p k =>
    if p = patient_id then
      if k = key then some value
      else if k = key ++ "_timestamp" then some (.ts now)
      else facts p k
    else facts p k

/-! ## Memory bank: patient facts, heap view (session_service.py lines 75-85)

`get_patient_facts` returns `self._facts.get(patient_id, {}).copy()`: a fresh
dictionary object. To state that the copy is detached we model dictionary
identity: a heap of dictionary cells, and `_facts` as references into it.
`get_patient_facts` allocates a fresh cell holding a copy of the stored
contents and returns its address. -/

/-- The contents of one Python dict cell (insertion-ordered key/value pairs). -/
def FactDict : Type := List (String × String)

/-- Read a key of a dict cell. -/
def dictLookup (d : FactDict) (k : String) : Option String :=
  (d.find? (fun p => p.1 = k)).map (fun p => p.2)

/-- `_facts` with dict identity: a heap of cells and per-patient references. -/
structure FactStore where
  heap : List FactDict
  refs : List (String × Nat)

/-- Look up the cell address of a patient's fact dict. -/
def refLookup (refs : List (String × Nat)) (patient_id : String) : Option Nat :=
  (refs.find? (fun p => p.1 = patient_id)).map (fun p => p.2)

/-- Dereference a cell address. -/
def heapGet (h : List FactDict) (i : Nat) : FactDict :=
  h.getD i []

/-- Overwrite a cell (a client mutating a dict it holds a reference to). -/
def heapSet (h : List FactDict) (i : Nat) (d : FactDict) : List FactDict :=
  h.set i d

/-- `MemoryBank.get_patient_facts` (session_service.py lines 75-85):
`self._facts.get(patient_id, {}).copy()` — allocate a fresh cell containing a
copy of the stored contents (empty when the patient is unknown) and return its
address together with the new store. -/
def get_patient_facts (st : FactStore) (patient_id : String) : Nat × FactStore :=
  let contents :=
    match refLookup st.refs patient_id with
    | some i => heapGet st.heap i
    | none => []
  (st.heap.length, ⟨st.heap ++ [contents], st.refs⟩)

/-- Well-formed store: every patient reference points into the heap. -/
def FactStoreWF (st : FactStore) : Prop :=
  ∀ pid i, refLookup st.refs pid = some i → i < st.heap.length

/-! ## Orchestrator (orchestrator.py, MedAIOrchestrator.process_patient_query)

External effects are supplied by an `Env`: each pipeline step's outcome is an
`Except String` value (`.error e` models an exception `e` escaping that step,
caught by the top-level handler — except the diagnosis step, whose handler is
local), and the wall-clock reads are rational time stamps. -/

/-- The mutable process-wide state the pipeline touches. -/
structure SysState where
  metrics : MetricsService
  facts : FactMap

/-- The fresh process state. -/
def SysState.init : SysState :=
  ⟨MetricsService.init, FactMap.empty⟩

/-- Step outcomes and clock reads of one pipeline run. -/
structure Env where
  symptomRes : String → Except String SymptomData
  docRes : String → Except String HistoryData
  webRes : String → Except String SearchResult
  diagRes : SymptomData → Option SearchResult → Except String DiagnosisData
  riskRes : SymptomData → HistoryData → Except String RiskData
  triageRes : RiskData → SymptomData → Except String TriageData
  durParallel : ℚ
  durWeb : ℚ
  durDiag : ℚ
  durRisk : ℚ
  durTriage : ℚ
  startTime : ℚ
  endTime : ℚ
  nowIso : String

/-- The `analysis` sub-object of a successful pipeline result
(orchestrator.py lines 124-131). -/
structure Analysis where
  symptoms_parsed : SymptomData
  history_context : HistoryData
  risk_assessment : RiskData
  triage_recommendation : TriageData
  web_guidelines : Option SearchResult
  diagnosis_suggestions : DiagnosisData
  deriving DecidableEq

/-- The dictionary returned by `process_patient_query`; the failure shape has
no `analysis` and no `bias_detected` key (orchestrator.py lines 120-141). -/
structure PipelineResult where
  success : Bool
  error : Option String := none
  session_id : String
  processing_time : ℚ
  analysis : Option Analysis := none
  bias_detected : Option Bool := none
  deriving DecidableEq

/-- Python `round(x, 2)` (up to float representation and tie direction). -/
def round2 (q : ℚ) : ℚ :=
  (round (q * 100) : Int) / 100

/-- `f"sess_{patient_id}_{int(time.time())}"` (orchestrator.py lines 122, 139). -/
def sessionId (patient_id : String) (t : ℚ) : String :=
  "sess_" ++ patient_id ++ "_" ++ toString t.floor

/-- Step 1: `if not doc_text or not doc_text.strip(): doc_text = ...`
(orchestrator.py lines 46-47). -/
def normalize_doc (doc_text : String) : String :=
  if isBlank doc_text then "No significant medical history." else doc_text

/-- Step 1.5 query: `f"{all_symptoms} diagnosis treatment medication"` over the
first three symptoms joined with ", " (orchestrator.py lines 68-71). -/
def search_query (symptom_data : SymptomData) : String :=
  joinWith ", " (symptom_data.symptoms.take 3) ++ " diagnosis treatment medication"

/-- The fixed escalation message of the safety override (orchestrator.py line 112). -/
def escalationMessage : String :=
  "OVERRIDE: AI detected safety inconsistency. Escalated to Nurse Review."

/-- The failure dictionary of the top-level handler (orchestrator.py lines 136-141). -/
def failureResult (patient_id e : String) (env : Env) : PipelineResult :=
  { success := false
    error := some e
    session_id := sessionId patient_id env.endTime
    processing_time := round2 (env.endTime - env.startTime) }

/-- `MedAIOrchestrator.process_patient_query` (orchestrator.py lines 23-141). -/
def process_patient_query (env : Env) (patient_id symptoms_text doc_text : String)
    (st : SysState) : PipelineResult × SysState :=
  let doc_text := normalize_doc doc_text
  -- 1. parallel extraction (asyncio.gather of the two agent runs)
  match env.symptomRes symptoms_text, env.docRes doc_text with
  | .error e, _ =>
      (failureResult patient_id e env, { st with metrics := st.metrics.log_mistriage })
  | .ok _, .error e =>
      (failureResult patient_id e env, { st with metrics := st.metrics.log_mistriage })
  | .ok symptom_data, .ok history_data =>
    let st : SysState :=
      { metrics := st.metrics.log_latency "agent_parallel_processing" env.durParallel
        facts := store_patient_fact
          (store_patient_fact st.facts patient_id "latest_symptoms" (.sym symptom_data)
            env.nowIso)
          patient_id "medical_history" (.hist history_data) env.nowIso }
    -- 1.5 conditional web search
    let webStep : Except String (Option SearchResult × SysState) :=
      if symptom_data.symptoms = [] then .ok (none, st)
      else
        match env.webRes (search_query symptom_data) with
        | .error e => .error e
        | .ok web_info =>
            .ok (some web_info,
              { metrics := st.metrics.log_latency "web_search" env.durWeb
                facts :=
                  if web_info.success && !web_info.results.isEmpty then
                    store_patient_fact st.facts patient_id "web_guidelines" (.web web_info)
                      env.nowIso
                  else st.facts })
    match webStep with
    | .error e =>
        (failureResult patient_id e env, { st with metrics := st.metrics.log_mistriage })
    | .ok (web_info, st) =>
      -- 1.6 diagnosis, with its own local exception handler
      let diagStep : DiagnosisData × SysState :=
        match env.diagRes symptom_data web_info with
        | .ok d =>
            -- `if diagnosis_data:` — the suggestion dict always carries the
            -- possible_diagnoses key, hence is truthy
            (d, { metrics := st.metrics.log_latency "agent_diagnosis" env.durDiag
                  facts := store_patient_fact st.facts patient_id "diagnosis_suggestions"
                    (.diag d) env.nowIso })
        | .error _ =>
            let d := DiagnosisAgent.fallback_diagnosis symptom_data
            (d, { st with
                  facts := store_patient_fact st.facts patient_id "diagnosis_suggestions"
                    (.diag d) env.nowIso })
      let diagnosis_data := diagStep.1
      let st := diagStep.2
      -- 2. risk scoring
      match env.riskRes symptom_data history_data with
      | .error e =>
          (failureResult patient_id e env, { st with metrics := st.metrics.log_mistriage })
      | .ok risk_data =>
        let st := { st with metrics := st.metrics.log_latency "agent_risk" env.durRisk }
        -- triage resolution
        match env.triageRes risk_data symptom_data with
        | .error e =>
            (failureResult patient_id e env, { st with metrics := st.metrics.log_mistriage })
        | .ok triage_data =>
          let st := { st with metrics := st.metrics.log_latency "agent_triage" env.durTriage }
          -- 3. bias detection and safety check
          let bias_detected : Bool :=
            decide (triage_data.action = "Home Care" ∧ 7 < risk_data.score)
          let triage_data :=
            if bias_detected then { triage_data with warning := some escalationMessage }
            else triage_data
          let m := if bias_detected then st.metrics.log_mistriage else st.metrics
          let st := { st with metrics := m.log_bias_check bias_detected }
          ({ success := true
             session_id := sessionId patient_id env.endTime
             processing_time := round2 (env.endTime - env.startTime)
             analysis := some
               { symptoms_parsed := symptom_data
                 history_context := history_data
                 risk_assessment := risk_data
                 triage_recommendation := triage_data
                 web_guidelines :=
                   match web_info with
                   | some w => if w.success then some w else none
                   | none => none
                 diagnosis_suggestions := diagnosis_data }
             bias_detected := some bias_detected }, st)

/-- The exception (if any) reaching the top-level handler of a run, in program
order: parallel extraction, conditional web search, risk scoring, triage
resolution (the diagnosis step never propagates — its handler is local). -/
def pipeline_failure (env : Env) (symptoms_text doc_text : String) : Option String :=
  match env.symptomRes symptoms_text, env.docRes (normalize_doc doc_text) with
  | .error e, _ => some e
  | .ok _, .error e => some e
  | .ok symptom_data, .ok history_data =>
    let webFail : Option String :=
      if symptom_data.symptoms = [] then none
      else
        match env.webRes (search_query symptom_data) with
        | .error e => some e
        | .ok _ => none
    match webFail with
    | some e => some e
    | none =>
      match env.riskRes symptom_data history_data with
      | .error e => some e
      | .ok risk_data =>
        match env.triageRes risk_data symptom_data with
        | .error e => some e
        | .ok _ => none

/-! ## Auxiliary definitions used by the verification -/

/-- Did the `Except` computation succeed? -/
def exOk {ε α : Type} : Except ε α → Bool
  | .ok _ => true
  | .error _ => false

/-- Log a whole list of latency samples for one component, in order. -/
def log_latency_all (ms : MetricsService) (component : String) (ds : List ℚ) : MetricsService :=
  ds.foldl (fun m d => m.log_latency component d) ms

/-- A fixed symptom record used to instantiate theorems. -/
def demoSymptoms : SymptomData := ⟨["headache"], "2 days", "Low", none⟩

/-- A fixed empty history record used to instantiate theorems. -/
def demoHistory0 : HistoryData := ⟨[], [], [], none⟩

/-- A symptom record hitting both keyword groups of the diagnosis fallback. -/
def demoColdFluSym : SymptomData := ⟨["bad cough", "high fever"], "2 days", "High", none⟩

/-- A symptom record hitting no keyword group of the diagnosis fallback. -/
def demoNoKeywordSym : SymptomData := ⟨["sore toe"], "1 day", "Low", none⟩

/-- The session store after `n` calls of `add_interaction` on session "s1"
with numbered user/assistant texts. -/
def demoSessionsAfter (n : Nat) : Sessions :=
  (List.range n).foldl
    (fun s i => add_interaction s "s1" ("u" ++ toString i) ("a" ++ toString i) ("t" ++ toString i))
    Sessions.empty

/-- All `2 * n` messages appended by `demoSessionsAfter n`, in append order. -/
def demoMessages (n : Nat) : List SessionMsg :=
  (List.range n).flatMap (fun i =>
    [⟨"user", "u" ++ toString i, "t" ++ toString i⟩,
     ⟨"assistant", "a" ++ toString i, "t" ++ toString i⟩])

/-- A concrete fact store: patient "alice" has one stored fact dict at cell 0. -/
def demoStore : FactStore :=
  ⟨[[("latest_symptoms", "flu")]], [("alice", 0)]⟩

/-- A run environment whose risk and triage steps force the safety override:
risk score 8 with a "Home Care" triage decision. -/
def demoEnvOverride : Env :=
  { symptomRes := fun _ => .ok ⟨["chest pain"], "1 hour", "High", none⟩
    docRes := fun _ => .ok ⟨["hypertension"], ["aspirin"], [], none⟩
    webRes := fun _ => .ok { success := false, message := some "SERPER_API_KEY not configured" }
    diagRes := fun _ _ => .error "diagnosis agent failed"
    riskRes := fun _ _ => .ok ⟨8, "High", "cardiac"⟩
    triageRes := fun _ _ => .ok ⟨"Home Care", "Next available", "General Practice", none⟩
    durParallel := 0, durWeb := 0, durDiag := 0, durRisk := 0, durTriage := 0
    startTime := 0, endTime := 0, nowIso := "t" }

/-- Like `demoEnvOverride` but at the boundary risk score 7. -/
def demoEnvBoundary : Env :=
  { demoEnvOverride with riskRes := fun _ _ => .ok ⟨7, "High", "cardiac"⟩ }

/-- A run environment whose triage step used the Triage Resolver fallback on a
low risk score, producing a "Home Care" decision carrying a fallback warning. -/
def demoEnvFallbackHomeCare : Env :=
  { symptomRes := fun _ => .ok ⟨["headache"], "1 day", "Low", none⟩
    docRes := fun _ => .ok ⟨[], [], [], none⟩
    webRes := fun _ => .ok { success := false, message := some "SERPER_API_KEY not configured" }
    diagRes := fun _ _ => .error "diagnosis agent failed"
    riskRes := fun _ _ => .ok ⟨3, "Medium", "r"⟩
    triageRes := fun rd sd => .ok (TriageAgent.run rd sd (.error "boom"))
    durParallel := 0, durWeb := 0, durDiag := 0, durRisk := 0, durTriage := 0
    startTime := 0, endTime := 0, nowIso := "t" }

/-- A run environment whose risk-scoring step raises. -/
def demoEnvRiskFail : Env :=
  { demoEnvFallbackHomeCare with riskRes := fun _ _ => .error "boom" }

/-! ## Helper lemmas -/

@[simp]
theorem log_latency_mistriage_count (ms : MetricsService) (c : String) (d : ℚ) :
    (ms.log_latency c d).mistriage_count = ms.mistriage_count := rfl

@[simp]
theorem log_latency_bias_detected_count (ms : MetricsService) (c : String) (d : ℚ) :
    (ms.log_latency c d).bias_detected_count = ms.bias_detected_count := rfl

@[simp]
theorem log_latency_bias_checks_total (ms : MetricsService) (c : String) (d : ℚ) :
    (ms.log_latency c d).bias_checks_total = ms.bias_checks_total := rfl

@[simp]
theorem log_mistriage_mistriage_count (ms : MetricsService) :
    ms.log_mistriage.mistriage_count = ms.mistriage_count + 1 := rfl

@[simp]
theorem log_mistriage_bias_detected_count (ms : MetricsService) :
    ms.log_mistriage.bias_detected_count = ms.bias_detected_count := rfl

@[simp]
theorem log_mistriage_bias_checks_total (ms : MetricsService) :
    ms.log_mistriage.bias_checks_total = ms.bias_checks_total := rfl

@[simp]
theorem log_bias_check_mistriage_count (ms : MetricsService) (b : Bool) :
    (ms.log_bias_check b).mistriage_count = ms.mistriage_count := by
  cases b <;> rfl

@[simp]
theorem log_bias_check_bias_checks_total (ms : MetricsService) (b : Bool) :
    (ms.log_bias_check b).bias_checks_total = ms.bias_checks_total + 1 := by
  cases b <;> rfl

@[simp]
theorem log_bias_check_bias_detected_count (ms : MetricsService) (b : Bool) :
    (ms.log_bias_check b).bias_detected_count =
      ms.bias_detected_count + (if b then 1 else 0) := by
  cases b <;> rfl

/-! ## C4: Triage Resolver fallback threshold table -/

/-- C4: when the Triage Resolver provider path fails, the fallback is
determined solely by `risk.score` via the fixed threshold table — score ≥ 8
yields Call 911 / Immediate / Emergency Medicine; 5 ≤ score < 8 yields
Schedule Appointment / 24 hours / General Practice; score < 5 yields
Home Care / Next available / General Practice — and a warning noting fallback
use is always attached. -/
theorem triage_fallback_table (risk : RiskData) (sym : SymptomData) (e : String) :
    (8 ≤ risk.score →
      TriageAgent.run risk sym (.error e) =
        ⟨"Call 911", "Immediate", "Emergency Medicine",
         some ("Fallback logic used: " ++ e)⟩) ∧
    (5 ≤ risk.score → risk.score < 8 →
      TriageAgent.run risk sym (.error e) =
        ⟨"Schedule Appointment", "24 hours", "General Practice",
         some ("Fallback logic used: " ++ e)⟩) ∧
    (risk.score < 5 →
      TriageAgent.run risk sym (.error e) =
        ⟨"Home Care", "Next available", "General Practice",
         some ("Fallback logic used: " ++ e)⟩) ∧
    (TriageAgent.run risk sym (.error e)).warning = some ("Fallback logic used: " ++ e) := by
  simp only [TriageAgent.run]
  refine ⟨fun h8 => ?_, fun h5 h8 => ?_, fun h5 => ?_, ?_⟩
  · rw [if_pos h8]
  · rw [if_neg (by omega), if_pos h5]
  · rw [if_neg (by omega), if_neg (by omega)]
  · split_ifs <;> rfl

/-- Witness for C4 exactly at the boundary scores 8, 5 and 4. -/
theorem triage_fallback_table_witness :
    TriageAgent.run ⟨8, "High", "r"⟩ demoSymptoms (.error "x") =
      ⟨"Call 911", "Immediate", "Emergency Medicine", some ("Fallback logic used: " ++ "x")⟩ ∧
    TriageAgent.run ⟨5, "Medium", "r"⟩ demoSymptoms (.error "x") =
      ⟨"Schedule Appointment", "24 hours", "General Practice",
       some ("Fallback logic used: " ++ "x")⟩ ∧
    TriageAgent.run ⟨4, "Low", "r"⟩ demoSymptoms (.error "x") =
      ⟨"Home Care", "Next available", "General Practice",
       some ("Fallback logic used: " ++ "x")⟩ :=
  ⟨(triage_fallback_table ⟨8, "High", "r"⟩ demoSymptoms "x").1 (by decide),
   (triage_fallback_table ⟨5, "Medium", "r"⟩ demoSymptoms "x").2.1 (by decide) (by decide),
   (triage_fallback_table ⟨4, "Low", "r"⟩ demoSymptoms "x").2.2.1 (by decide)⟩

/-! ## C5: Risk Scorer fallback table -/

/-- C5: when the Risk Scorer provider path fails, the fallback score follows
the fixed table Low ↦ 3, Medium ↦ 6, High ↦ 9 with default 5 for any other
severity (so Critical yields 5), and the fallback category is "High" exactly
when the score is at least 7, otherwise "Medium". -/
theorem risk_fallback_table (sym : SymptomData) (hist : HistoryData) (e : String) :
    (sym.severity = "Low" → (RiskAgent.run sym hist (.error e)).score = 3) ∧
    (sym.severity = "Medium" → (RiskAgent.run sym hist (.error e)).score = 6) ∧
    (sym.severity = "High" → (RiskAgent.run sym hist (.error e)).score = 9) ∧
    (sym.severity = "Critical" → (RiskAgent.run sym hist (.error e)).score = 5) ∧
    (sym.severity ∉ (["Low", "Medium", "High"] : List String) →
      (RiskAgent.run sym hist (.error e)).score = 5) ∧
    ((RiskAgent.run sym hist (.error e)).category = "High" ↔
      7 ≤ (RiskAgent.run sym hist (.error e)).score) ∧
    ((RiskAgent.run sym hist (.error e)).score < 7 →
      (RiskAgent.run sym hist (.error e)).category = "Medium") ∧
    ((RiskAgent.run sym hist (.error e)).category =
      if 7 ≤ (RiskAgent.run sym hist (.error e)).score then "High" else "Medium") := by
  by_cases h1 : sym.severity = "Low"
  · simp [RiskAgent.run, h1]
  · by_cases h2 : sym.severity = "Medium"
    · simp [RiskAgent.run, h1, h2]
    · by_cases h3 : sym.severity = "High"
      · simp [RiskAgent.run, h1, h2, h3]
      · simp [RiskAgent.run, h1, h2, h3]

/-- Witness for C5 at all four severities, the category iff, and the concrete
"Medium" category below the threshold. -/
theorem risk_fallback_table_witness :
    (RiskAgent.run ⟨["x"], "d", "Low", none⟩ demoHistory0 (.error "x")).score = 3 ∧
    (RiskAgent.run ⟨["x"], "d", "Medium", none⟩ demoHistory0 (.error "x")).score = 6 ∧
    (RiskAgent.run ⟨["x"], "d", "High", none⟩ demoHistory0 (.error "x")).score = 9 ∧
    (RiskAgent.run ⟨["x"], "d", "Critical", none⟩ demoHistory0 (.error "x")).score = 5 ∧
    ((RiskAgent.run ⟨["x"], "d", "High", none⟩ demoHistory0 (.error "x")).category = "High" ↔
      7 ≤ (RiskAgent.run ⟨["x"], "d", "High", none⟩ demoHistory0 (.error "x")).score) ∧
    (RiskAgent.run ⟨["x"], "d", "Low", none⟩ demoHistory0 (.error "x")).category = "Medium" ∧
    (RiskAgent.run ⟨["x"], "d", "Critical", none⟩ demoHistory0 (.error "x")).category
      = "Medium" ∧
    (RiskAgent.run ⟨["x"], "d", "High", none⟩ demoHistory0 (.error "x")).category = "High" :=
  ⟨(risk_fallback_table ⟨["x"], "d", "Low", none⟩ demoHistory0 "x").1 rfl,
   (risk_fallback_table ⟨["x"], "d", "Medium", none⟩ demoHistory0 "x").2.1 rfl,
   (risk_fallback_table ⟨["x"], "d", "High", none⟩ demoHistory0 "x").2.2.1 rfl,
   (risk_fallback_table ⟨["x"], "d", "Critical", none⟩ demoHistory0 "x").2.2.2.1 rfl,
   (risk_fallback_table ⟨["x"], "d", "High", none⟩ demoHistory0 "x").2.2.2.2.2.1,
   (risk_fallback_table ⟨["x"], "d", "Low", none⟩ demoHistory0 "x").2.2.2.2.2.2.1 (by decide),
   (risk_fallback_table ⟨["x"], "d", "Critical", none⟩ demoHistory0
     "x").2.2.2.2.2.2.1 (by decide),
   ((risk_fallback_table ⟨["x"], "d", "High", none⟩ demoHistory0 "x").2.2.2.2.2.1).mpr
     (by decide)⟩

/-! ## C6: blank input short-circuits the Extraction Units -/

/-- C6: for empty or whitespace-only input text each Extraction Unit returns
its type's exact zero-value record and does not consult the completion
provider (the returned flag is `false`). -/
theorem extraction_blank_zero_record (text : String) (p : Except String SymptomParsed)
    (q : Except String DocParsed) (h : isBlank text = true) :
    SymptomAgent.run text p = (⟨[], "unknown", "Low", none⟩, false) ∧
    DocAgent.run text q = (⟨[], [], [], none⟩, false) := by
  constructor <;> simp [SymptomAgent.run, DocAgent.run, h]

/-- Witness for C6 on a whitespace-only input with a failing provider. -/
theorem extraction_blank_zero_record_witness :
    SymptomAgent.run "  " (.error "x") = (⟨[], "unknown", "Low", none⟩, false) ∧
    DocAgent.run "  " (.error "x") = (⟨[], [], [], none⟩, false) :=
  extraction_blank_zero_record "  " (.error "x") (.error "x") (by decide)

/-! ## C9: diagnosis fallback keyword engine -/

/-- C9: the keyword fallback over the lower-cased concatenated symptom strings
yields the Common Cold entry (three named OTC medications) when a cold-group
keyword matches, the Influenza entry (one prescription and one OTC option)
when a flu-group keyword matches, both entries when both groups match, and the
single generic General Symptoms entry when nothing matches — so
`possible_diagnoses` is never empty and `general_recommendations` is the fixed
safety message. -/
theorem diagnosis_fallback_engine (sym : SymptomData) :
    (coldHit sym = true →
      commonColdEntry ∈ (DiagnosisAgent.fallback_diagnosis sym).possible_diagnoses) ∧
    (fluHit sym = true →
      influenzaEntry ∈ (DiagnosisAgent.fallback_diagnosis sym).possible_diagnoses) ∧
    (coldHit sym = true → fluHit sym = true →
      (DiagnosisAgent.fallback_diagnosis sym).possible_diagnoses =
        [commonColdEntry, influenzaEntry]) ∧
    (coldHit sym = false → fluHit sym = false →
      (DiagnosisAgent.fallback_diagnosis sym).possible_diagnoses = [generalSymptomsEntry]) ∧
    (DiagnosisAgent.fallback_diagnosis sym).possible_diagnoses ≠ [] ∧
    (DiagnosisAgent.fallback_diagnosis sym).general_recommendations = fallbackRecommendation ∧
    commonColdEntry.medications.map Medication.type = ["OTC", "OTC", "OTC"] ∧
    influenzaEntry.medications.map Medication.type = ["Prescription", "OTC"] := by
  cases hc : coldHit sym <;> cases hf : fluHit sym <;>
    simp [DiagnosisAgent.fallback_diagnosis, hc, hf] <;> decide

/-- Witness for C9: both keyword groups hit, and no keyword hit. -/
theorem diagnosis_fallback_engine_witness :
    (DiagnosisAgent.fallback_diagnosis demoColdFluSym).possible_diagnoses =
      [commonColdEntry, influenzaEntry] ∧
    (DiagnosisAgent.fallback_diagnosis demoNoKeywordSym).possible_diagnoses =
      [generalSymptomsEntry] :=
  ⟨(diagnosis_fallback_engine demoColdFluSym).2.2.1 (by decide) (by decide),
   (diagnosis_fallback_engine demoNoKeywordSym).2.2.2.1 (by decide) (by decide)⟩

/-! ## C7: session history compaction -/

/-- C7 counterexample: appending 21 interactions to an empty session leaves 18
messages — neither the last 10 list entries nor the last 10 user/assistant
pairs (20 entries) — so the claimed "exactly the last 10 turns" is false. -/
theorem session_compaction_counterexample :
    (get_history (demoSessionsAfter 21) "s1").length = 18 ∧
    (get_history (demoSessionsAfter 21) "s1").length ≠ 10 ∧
    (get_history (demoSessionsAfter 21) "s1").length ≠ 20 := by
  decide

/-- C7 amended: each `add_interaction` appends two messages (user then
assistant) and truncates one-shot to the last 10 messages exactly when the
list length then exceeds 20; appending 21 interactions to an empty session
therefore leaves exactly the last 18 of the 42 appended messages (the last 9
interactions) in original relative order. -/
theorem session_compaction_amended :
    (∀ (s : Sessions) (sid u a t : String),
      get_history (add_interaction s sid u a t) sid =
        (if 20 < (get_history s sid).length + 2 then
          lastN 10 (get_history s sid ++ [⟨"user", u, t⟩, ⟨"assistant", a, t⟩])
         else get_history s sid ++ [⟨"user", u, t⟩, ⟨"assistant", a, t⟩])) ∧
    get_history (demoSessionsAfter 21) "s1" = lastN 18 (demoMessages 21) ∧
    (get_history (demoSessionsAfter 21) "s1").length = 18 := by
  refine ⟨?_, by decide, by decide⟩
  intro s sid u a t
  simp [get_history, add_interaction, List.length_append]

/-! ## C8: metrics rolling latency window -/

theorem lastN_lastN_append {α : Type} (n : Nat) (l r : List α) :
    lastN n (lastN n l ++ r) = lastN n (l ++ r) := by
  unfold lastN
  rcases Nat.le_total n l.length with h | h
  · have hk : l.length - n ≤ l.length := Nat.sub_le _ _
    rw [← List.drop_append_of_le_length hk, List.drop_drop]
    congr 1
    simp only [List.length_drop, List.length_append]
    omega
  · have h0 : l.length - n = 0 := Nat.sub_eq_zero_of_le h
    rw [h0, List.drop_zero]

theorem log_latency_data_self (ms : MetricsService) (c : String) (d : ℚ) :
    (ms.log_latency c d).latency_data c =
      (if 100 < (ms.latency_data c ++ [d]).length then lastN 100 (ms.latency_data c ++ [d])
       else ms.latency_data c ++ [d]) := by
  simp [MetricsService.log_latency]

theorem log_latency_all_data (c : String) (ds : List ℚ) :
    ∀ ms : MetricsService, (ms.latency_data c).length ≤ 100 →
      (log_latency_all ms c ds).latency_data c = lastN 100 (ms.latency_data c ++ ds) := by
  induction ds with
  | nil =>
    intro ms h
    have h0 : (ms.latency_data c).length - 100 = 0 := by omega
    simp [log_latency_all, lastN, h0]
  | cons d ds ih =>
    intro ms h
    have hstep : ((ms.log_latency c d).latency_data c).length ≤ 100 := by
      rw [log_latency_data_self]
      split
      · simp only [lastN, List.length_drop]
        omega
      · next hgt => simp only [List.length_append] at hgt ⊢; omega
    calc (log_latency_all ms c (d :: ds)).latency_data c
        = (log_latency_all (ms.log_latency c d) c ds).latency_data c := rfl
      _ = lastN 100 ((ms.log_latency c d).latency_data c ++ ds) := ih _ hstep
      _ = lastN 100 (ms.latency_data c ++ (d :: ds)) := by
          rw [log_latency_data_self]
          by_cases hgt : 100 < (ms.latency_data c ++ [d]).length
          · rw [if_pos hgt, lastN_lastN_append, List.append_assoc]
            rfl
          · rw [if_neg hgt, List.append_assoc]
            rfl

/-- C8: the average latency of a component with zero recorded samples is 0,
and once more than 100 samples have been recorded for a component only the
most recent 100 are retained and contribute to the average. -/
theorem metrics_latency_window :
    (∀ (ms : MetricsService) (c : String), ms.latency_data c = [] →
      ms.get_average_latency c = 0) ∧
    (∀ (ms : MetricsService) (c : String) (ds : List ℚ), ms.latency_data c = [] →
      100 < ds.length →
      (log_latency_all ms c ds).latency_data c = lastN 100 ds ∧
      (lastN 100 ds).length = 100 ∧
      (log_latency_all ms c ds).get_average_latency c = (lastN 100 ds).sum / 100) := by
  constructor
  · intro ms c h
    simp [MetricsService.get_average_latency, h]
  · intro ms c ds h0 hlen
    have hdata := log_latency_all_data c ds ms (by simp [h0])
    rw [h0] at hdata
    simp only [List.nil_append] at hdata
    have hl : (lastN 100 ds).length = 100 := by
      simp only [lastN, List.length_drop]
      omega
    have hne : lastN 100 ds ≠ [] := by
      intro hc
      rw [hc] at hl
      simp at hl
    refine ⟨hdata, hl, ?_⟩
    simp [MetricsService.get_average_latency, hdata, hne, hl]

/-- Witness for C8: a fresh service has average 0, and 101 logged samples are
truncated to the last 100. -/
theorem metrics_latency_window_witness :
    MetricsService.get_average_latency MetricsService.init "agent_risk" = 0 ∧
    (log_latency_all MetricsService.init "agent_risk" (List.replicate 101 2)).latency_data
      "agent_risk" = lastN 100 (List.replicate 101 2) :=
  ⟨metrics_latency_window.1 MetricsService.init "agent_risk" rfl,
   (metrics_latency_window.2 MetricsService.init "agent_risk" (List.replicate 101 2) rfl
     (by simp)).1⟩

/-! ## C10: get_patient_facts returns a detached copy -/

theorem heapGet_append_left (h : List FactDict) (c : FactDict) (i : Nat)
    (hi : i < h.length) : heapGet (h ++ [c]) i = heapGet h i := by
  unfold heapGet
  induction h generalizing i with
  | nil => simp at hi
  | cons x xs ih =>
    cases i with
    | zero => rfl
    | succ j =>
      simp only [List.cons_append, List.getD_cons_succ]
      exact ih j (by simpa using hi)

theorem heapGet_append_last (h : List FactDict) (c : FactDict) :
    heapGet (h ++ [c]) h.length = c := by
  unfold heapGet
  induction h with
  | nil => rfl
  | cons x xs ih =>
    simp only [List.cons_append, List.length_cons, List.getD_cons_succ]
    exact ih

theorem heapGet_set_ne (h : List FactDict) (i j : Nat) (d : FactDict) (hij : j ≠ i) :
    heapGet (heapSet h j d) i = heapGet h i := by
  unfold heapGet heapSet
  induction h generalizing i j with
  | nil => rfl
  | cons x xs ih =>
    cases j with
    | zero =>
      cases i with
      | zero => exact absurd rfl hij
      | succ i' => rfl
    | succ j' =>
      cases i with
      | zero => rfl
      | succ i' =>
        simp only [List.set_cons_succ, List.getD_cons_succ]
        exact ih i' j' (by omega)

/-- C10: on a well-formed store, `get_patient_facts` leaves the stored
references and every stored patient dict unchanged, the returned cell is a
detached copy — arbitrarily overwriting it never alters any stored patient
dict — its contents equal the stored facts of the patient, and they are empty
for an unknown patient id. -/
theorem get_patient_facts_detached (st : FactStore) (pid : String) (hwf : FactStoreWF st) :
    ((get_patient_facts st pid).2.refs = st.refs) ∧
    (∀ q i, refLookup st.refs q = some i →
      heapGet (get_patient_facts st pid).2.heap i = heapGet st.heap i) ∧
    (∀ (d : FactDict) (q : String) (i : Nat), refLookup st.refs q = some i →
      heapGet (heapSet (get_patient_facts st pid).2.heap (get_patient_facts st pid).1 d) i =
        heapGet st.heap i) ∧
    (refLookup st.refs pid = none →
      heapGet (get_patient_facts st pid).2.heap (get_patient_facts st pid).1 = []) ∧
    (∀ i, refLookup st.refs pid = some i →
      heapGet (get_patient_facts st pid).2.heap (get_patient_facts st pid).1 =
        heapGet st.heap i) := by
  refine ⟨rfl, ?_, ?_, ?_, ?_⟩
  · intro q i hq
    exact heapGet_append_left _ _ _ (hwf q i hq)
  · intro d q i hq
    have hi : i < st.heap.length := hwf q i hq
    rw [show (get_patient_facts st pid).1 = st.heap.length from rfl]
    rw [heapGet_set_ne _ _ _ _ (by omega)]
    exact heapGet_append_left _ _ _ hi
  · intro hnone
    show heapGet (st.heap ++ [_]) st.heap.length = []
    rw [heapGet_append_last]
    simp [hnone]
  · intro i hi
    show heapGet (st.heap ++ [_]) st.heap.length = heapGet st.heap i
    rw [heapGet_append_last]
    simp [hi]

/-- Witness for C10: overwriting the copy returned for "alice" leaves the
stored dict of "alice" unchanged. -/
theorem get_patient_facts_detached_witness :
    heapGet
      (heapSet (get_patient_facts demoStore "alice").2.heap
        (get_patient_facts demoStore "alice").1 [("hacked", "1")]) 0 =
      heapGet demoStore.heap 0 := by
  have hwf : FactStoreWF demoStore := by
    intro pid i h
    by_cases hp : "alice" = pid
    · simp [refLookup, demoStore, List.find?, hp] at h
      simp [demoStore]
      omega
    · simp [refLookup, demoStore, List.find?, hp] at h
  exact (get_patient_facts_detached demoStore "alice" hwf).2.2.1 [("hacked", "1")] "alice" 0
    (by decide)

/-! ## C1: the safety-override rule of the pipeline -/

theorem process_ok_core (env : Env) (patient_id symptoms_text doc_text : String)
    (st : SysState) (sd : SymptomData) (hh : HistoryData) (w : SearchResult)
    (risk : RiskData) (triage : TriageData)
    (hsym : env.symptomRes symptoms_text = .ok sd)
    (hdoc : env.docRes (normalize_doc doc_text) = .ok hh)
    (hweb : env.webRes (search_query sd) = .ok w)
    (hrisk : env.riskRes sd hh = .ok risk)
    (htriage : env.triageRes risk sd = .ok triage) :
    (process_patient_query env patient_id symptoms_text doc_text st).1.success = true ∧
    (process_patient_query env patient_id symptoms_text doc_text st).1.bias_detected =
      some (decide (triage.action = "Home Care" ∧ 7 < risk.score)) ∧
    ((process_patient_query env patient_id symptoms_text doc_text st).1.analysis.map
      Analysis.triage_recommendation) =
      some (if decide (triage.action = "Home Care" ∧ 7 < risk.score) = true then
        { triage with warning := some escalationMessage } else triage) ∧
    (process_patient_query env patient_id symptoms_text doc_text st).2.metrics.mistriage_count =
      st.metrics.mistriage_count +
        (if decide (triage.action = "Home Care" ∧ 7 < risk.score) = true then 1 else 0) ∧
    (process_patient_query env patient_id symptoms_text doc_text st).2.metrics.bias_checks_total =
      st.metrics.bias_checks_total + 1 ∧
    (process_patient_query env patient_id symptoms_text doc_text
        st).2.metrics.bias_detected_count =
      st.metrics.bias_detected_count +
        (if decide (triage.action = "Home Care" ∧ 7 < risk.score) = true then 1 else 0) := by
  by_cases hs : sd.symptoms = []
  · cases hd : env.diagRes sd none with
    | ok d =>
      by_cases hb : (triage.action = "Home Care" ∧ 7 < risk.score)
      · simp [process_patient_query, hsym, hdoc, hs, hweb, hrisk, htriage, hd, hb]
      · simp [process_patient_query, hsym, hdoc, hs, hweb, hrisk, htriage, hd, hb]
    | error e =>
      by_cases hb : (triage.action = "Home Care" ∧ 7 < risk.score)
      · simp [process_patient_query, hsym, hdoc, hs, hweb, hrisk, htriage, hd, hb]
      · simp [process_patient_query, hsym, hdoc, hs, hweb, hrisk, htriage, hd, hb]
  · cases hd : env.diagRes sd (some w) with
    | ok d =>
      by_cases hb : (triage.action = "Home Care" ∧ 7 < risk.score)
      · simp [process_patient_query, hsym, hdoc, hs, hweb, hrisk, htriage, hd, hb]
      · simp [process_patient_query, hsym, hdoc, hs, hweb, hrisk, htriage, hd, hb]
    | error e =>
      by_cases hb : (triage.action = "Home Care" ∧ 7 < risk.score)
      · simp [process_patient_query, hsym, hdoc, hs, hweb, hrisk, htriage, hd, hb]
      · simp [process_patient_query, hsym, hdoc, hs, hweb, hrisk, htriage, hd, hb]

/-- C1: on every run that completes the pipeline steps, the safety override
fires exactly when the triage action is "Home Care" and the risk score is
strictly greater than 7 (so not at the boundary score 7); when it fires the
triage warning is overwritten with the fixed escalation message, the
mis-triage counter is incremented by exactly 1 and `bias_detected` is true;
when it does not fire the triage decision and the mis-triage counter are left
unchanged; and a bias-check event is recorded on the run either way. -/
theorem safety_override_rule (env : Env) (patient_id symptoms_text doc_text : String)
    (st : SysState) (sd : SymptomData) (hh : HistoryData) (w : SearchResult)
    (risk : RiskData) (triage : TriageData)
    (hsym : env.symptomRes symptoms_text = .ok sd)
    (hdoc : env.docRes (normalize_doc doc_text) = .ok hh)
    (hweb : env.webRes (search_query sd) = .ok w)
    (hrisk : env.riskRes sd hh = .ok risk)
    (htriage : env.triageRes risk sd = .ok triage) :
    (process_patient_query env patient_id symptoms_text doc_text st).1.success = true ∧
    (process_patient_query env patient_id symptoms_text doc_text st).1.bias_detected =
      some (decide (triage.action = "Home Care" ∧ 7 < risk.score)) ∧
    ((process_patient_query env patient_id symptoms_text doc_text st).1.analysis.map
      Analysis.triage_recommendation) =
      some (if decide (triage.action = "Home Care" ∧ 7 < risk.score) = true then
        { triage with warning := some escalationMessage } else triage) ∧
    (process_patient_query env patient_id symptoms_text doc_text st).2.metrics.mistriage_count =
      st.metrics.mistriage_count +
        (if decide (triage.action = "Home Care" ∧ 7 < risk.score) = true then 1 else 0) ∧
    (process_patient_query env patient_id symptoms_text doc_text st).2.metrics.bias_checks_total =
      st.metrics.bias_checks_total + 1 :=
  have h := process_ok_core env patient_id symptoms_text doc_text st sd hh w risk triage
    hsym hdoc hweb hrisk htriage
  ⟨h.1, h.2.1, h.2.2.1, h.2.2.2.1, h.2.2.2.2.1⟩

/-- Witness for C1: a completed run with score 8 and "Home Care" fires the
override (warning overwritten, counter 0 → 1, bias detected, bias check
recorded), and one with the boundary score 7 does not fire it. -/
theorem safety_override_rule_witness :
    (process_patient_query demoEnvOverride "p" "chest pain" "" SysState.init).1.bias_detected =
      some true ∧
    ((process_patient_query demoEnvOverride "p" "chest pain" "" SysState.init).1.analysis.map
      Analysis.triage_recommendation) =
      some ⟨"Home Care", "Next available", "General Practice", some escalationMessage⟩ ∧
    (process_patient_query demoEnvOverride "p" "chest pain" ""
      SysState.init).2.metrics.mistriage_count = 1 ∧
    (process_patient_query demoEnvOverride "p" "chest pain" ""
      SysState.init).2.metrics.bias_checks_total = 1 ∧
    (process_patient_query demoEnvBoundary "p" "chest pain" "" SysState.init).1.bias_detected =
      some false ∧
    (process_patient_query demoEnvBoundary "p" "chest pain" ""
      SysState.init).2.metrics.mistriage_count = 0 := by
  have h1 := safety_override_rule demoEnvOverride "p" "chest pain" "" SysState.init
    ⟨["chest pain"], "1 hour", "High", none⟩ ⟨["hypertension"], ["aspirin"], [], none⟩
    { success := false, message := some "SERPER_API_KEY not configured" }
    ⟨8, "High", "cardiac"⟩ ⟨"Home Care", "Next available", "General Practice", none⟩
    rfl rfl rfl rfl rfl
  have h2 := safety_override_rule demoEnvBoundary "p" "chest pain" "" SysState.init
    ⟨["chest pain"], "1 hour", "High", none⟩ ⟨["hypertension"], ["aspirin"], [], none⟩
    { success := false, message := some "SERPER_API_KEY not configured" }
    ⟨7, "High", "cardiac"⟩ ⟨"Home Care", "Next available", "General Practice", none⟩
    rfl rfl rfl rfl rfl
  exact ⟨h1.2.1.trans (by decide), h1.2.2.1.trans (by decide),
    h1.2.2.2.1.trans (by decide), h1.2.2.2.2.trans (by decide),
    h2.2.1.trans (by decide), h2.2.2.2.1.trans (by decide)⟩

/-! ## C2: warning presence on the returned triage decision -/

/-- C2 counterexample: a run whose Triage Resolver used its fallback on risk
score 3 returns a "Home Care" decision whose warning is present although the
safety override did not fire (`bias_detected = false`) — refuting "warning is
present iff the safety override fired". -/
theorem triage_warning_counterexample :
    ((process_patient_query demoEnvFallbackHomeCare "p" "headache" ""
        SysState.init).1.analysis.map (fun a => a.triage_recommendation.warning)) =
      some (some ("Fallback logic used: boom")) ∧
    ((process_patient_query demoEnvFallbackHomeCare "p" "headache" ""
        SysState.init).1.analysis.map (fun a => a.triage_recommendation.action)) =
      some "Home Care" ∧
    (process_patient_query demoEnvFallbackHomeCare "p" "headache" ""
        SysState.init).1.bias_detected = some false :=
  ⟨rfl, rfl, rfl⟩

/-- C2 amended: on every run that completes the pipeline steps with the triage
decision produced by the Triage Resolver, the returned triage decision's
warning is present iff the safety override fired or the Triage Resolver used
its fallback path (which attaches a fallback warning). -/
theorem triage_warning_amended (env : Env) (patient_id symptoms_text doc_text : String)
    (st : SysState) (sd : SymptomData) (hh : HistoryData) (w : SearchResult)
    (risk : RiskData) (tprov : Except String TriageParsed)
    (hsym : env.symptomRes symptoms_text = .ok sd)
    (hdoc : env.docRes (normalize_doc doc_text) = .ok hh)
    (hweb : env.webRes (search_query sd) = .ok w)
    (hrisk : env.riskRes sd hh = .ok risk)
    (htriage : env.triageRes risk sd = .ok (TriageAgent.run risk sd tprov)) :
    ((process_patient_query env patient_id symptoms_text doc_text st).1.analysis.map
      (fun a => a.triage_recommendation.warning.isSome)) =
      some ((decide ((TriageAgent.run risk sd tprov).action = "Home Care" ∧ 7 < risk.score)) ||
        !(exOk tprov)) := by
  have h := process_ok_core env patient_id symptoms_text doc_text st sd hh w risk
    (TriageAgent.run risk sd tprov) hsym hdoc hweb hrisk htriage
  obtain ⟨-, -, hmap, -, -, -⟩ := h
  cases hval : (process_patient_query env patient_id symptoms_text doc_text st).1.analysis with
  | none => rw [hval] at hmap; simp at hmap
  | some a =>
    rw [hval] at hmap
    simp only [Option.map_some'] at hmap ⊢
    rw [Option.some_inj] at hmap
    rw [hmap]
    by_cases hb : ((TriageAgent.run risk sd tprov).action = "Home Care" ∧ 7 < risk.score)
    · simp [hb]
    · have hdec : (decide ((TriageAgent.run risk sd tprov).action = "Home Care" ∧
          7 < risk.score)) = false := by simp [hb]
      rw [hdec]
      simp only [Bool.false_or, Bool.false_eq_true, if_false]
      cases tprov with
      | ok p => simp [TriageAgent.run, exOk]
      | error e =>
        simp only [exOk, Bool.not_false]
        simp only [TriageAgent.run]
        split_ifs <;> simp

/-- Witness for C2 amended: on the fallback "Home Care" run the warning is
present (the fallback path was used although the override did not fire). -/
theorem triage_warning_amended_witness :
    ((process_patient_query demoEnvFallbackHomeCare "p" "headache" ""
        SysState.init).1.analysis.map
      (fun a => a.triage_recommendation.warning.isSome)) = some true := by
  have h := triage_warning_amended demoEnvFallbackHomeCare "p" "headache" "" SysState.init
    ⟨["headache"], "1 day", "Low", none⟩ ⟨[], [], [], none⟩
    { success := false, message := some "SERPER_API_KEY not configured" }
    ⟨3, "Medium", "r"⟩ (.error "boom") rfl rfl rfl rfl rfl
  exact h.trans (by decide)

/-! ## C3: the pipeline never raises past its boundary -/

/-- C3: a run's result has the failure shape — `success = false`, the error
description, a session id freshly generated from the patient id and the
current clock, the elapsed time, and no analysis — with the mis-triage counter
incremented by exactly 1, precisely when some step of the run raised (as
characterized by `pipeline_failure`); otherwise the run returns a success
result: the failure is caught once at the top level and never propagates. -/
theorem pipeline_boundary (env : Env) (patient_id symptoms_text doc_text : String)
    (st : SysState) :
    (∀ e, pipeline_failure env symptoms_text doc_text = some e →
      (process_patient_query env patient_id symptoms_text doc_text st).1 =
        { success := false
          error := some e
          session_id := sessionId patient_id env.endTime
          processing_time := round2 (env.endTime - env.startTime)
          analysis := none
          bias_detected := none } ∧
      (process_patient_query env patient_id symptoms_text doc_text
          st).2.metrics.mistriage_count = st.metrics.mistriage_count + 1) ∧
    (pipeline_failure env symptoms_text doc_text = none →
      (process_patient_query env patient_id symptoms_text doc_text st).1.success = true) := by
  cases h1 : env.symptomRes symptoms_text with
  | error e1 =>
    refine ⟨fun e he => ?_, fun hn => ?_⟩
    · simp only [pipeline_failure, h1, Option.some_inj] at he
      subst he
      exact ⟨by simp [process_patient_query, h1, failureResult],
        by simp [process_patient_query, h1]⟩
    · simp [pipeline_failure, h1] at hn
  | ok sd =>
    cases h2 : env.docRes (normalize_doc doc_text) with
    | error e2 =>
      refine ⟨fun e he => ?_, fun hn => ?_⟩
      · simp only [pipeline_failure, h1, h2, Option.some_inj] at he
        subst he
        exact ⟨by simp [process_patient_query, h1, h2, failureResult],
          by simp [process_patient_query, h1, h2]⟩
      · simp [pipeline_failure, h1, h2] at hn
    | ok hh =>
      by_cases hs : sd.symptoms = []
      · cases h4 : env.riskRes sd hh with
        | error e4 =>
          refine ⟨fun e he => ?_, fun hn => ?_⟩
          · simp only [pipeline_failure, h1, h2, hs, if_pos, if_true, h4,
              Option.some_inj] at he
            subst he
            cases h3 : env.diagRes sd none with
            | ok d =>
              exact ⟨by simp [process_patient_query, h1, h2, hs, h3, h4, failureResult],
                by simp [process_patient_query, h1, h2, hs, h3, h4]⟩
            | error e3 =>
              exact ⟨by simp [process_patient_query, h1, h2, hs, h3, h4, failureResult],
                by simp [process_patient_query, h1, h2, hs, h3, h4]⟩
          · simp [pipeline_failure, h1, h2, hs, h4] at hn
        | ok risk =>
          cases h5 : env.triageRes risk sd with
          | error e5 =>
            refine ⟨fun e he => ?_, fun hn => ?_⟩
            · simp only [pipeline_failure, h1, h2, hs, if_pos, if_true, h4, h5,
                Option.some_inj] at he
              subst he
              cases h3 : env.diagRes sd none with
              | ok d =>
                exact ⟨by simp [process_patient_query, h1, h2, hs, h3, h4, h5, failureResult],
                  by simp [process_patient_query, h1, h2, hs, h3, h4, h5]⟩
              | error e3 =>
                exact ⟨by simp [process_patient_query, h1, h2, hs, h3, h4, h5, failureResult],
                  by simp [process_patient_query, h1, h2, hs, h3, h4, h5]⟩
            · simp [pipeline_failure, h1, h2, hs, h4, h5] at hn
          | ok triage =>
            refine ⟨fun e he => ?_, fun hn => ?_⟩
            · simp [pipeline_failure, h1, h2, hs, h4, h5] at he
            · cases h3 : env.diagRes sd none with
              | ok d => simp [process_patient_query, h1, h2, hs, h3, h4, h5]
              | error e3 => simp [process_patient_query, h1, h2, hs, h3, h4, h5]
      · cases hw : env.webRes (search_query sd) with
        | error ew =>
          refine ⟨fun e he => ?_, fun hn => ?_⟩
          · simp only [pipeline_failure, h1, h2, hs, if_neg, if_false, hw,
              Option.some_inj] at he
            subst he
            exact ⟨by simp [process_patient_query, h1, h2, hs, hw, failureResult],
              by simp [process_patient_query, h1, h2, hs, hw]⟩
          · simp [pipeline_failure, h1, h2, hs, hw] at hn
        | ok w =>
          cases h4 : env.riskRes sd hh with
          | error e4 =>
            refine ⟨fun e he => ?_, fun hn => ?_⟩
            · simp only [pipeline_failure, h1, h2, hs, if_neg, if_false, hw, h4,
                Option.some_inj] at he
              subst he
              cases h3 : env.diagRes sd (some w) with
              | ok d =>
                exact ⟨by simp [process_patient_query, h1, h2, hs, hw, h3, h4, failureResult],
                  by simp [process_patient_query, h1, h2, hs, hw, h3, h4]⟩
              | error e3 =>
                exact ⟨by simp [process_patient_query, h1, h2, hs, hw, h3, h4, failureResult],
                  by simp [process_patient_query, h1, h2, hs, hw, h3, h4]⟩
            · simp [pipeline_failure, h1, h2, hs, hw, h4] at hn
          | ok risk =>
            cases h5 : env.triageRes risk sd with
            | error e5 =>
              refine ⟨fun e he => ?_, fun hn => ?_⟩
              · simp only [pipeline_failure, h1, h2, hs, if_neg, if_false, hw, h4, h5,
                  Option.some_inj] at he
                subst he
                cases h3 : env.diagRes sd (some w) with
                | ok d =>
                  exact ⟨by simp [process_patient_query, h1, h2, hs, hw, h3, h4, h5,
                      failureResult],
                    by simp [process_patient_query, h1, h2, hs, hw, h3, h4, h5]⟩
                | error e3 =>
                  exact ⟨by simp [process_patient_query, h1, h2, hs, hw, h3, h4, h5,
                      failureResult],
                    by simp [process_patient_query, h1, h2, hs, hw, h3, h4, h5]⟩
              · simp [pipeline_failure, h1, h2, hs, hw, h4, h5] at hn
            | ok triage =>
              refine ⟨fun e he => ?_, fun hn => ?_⟩
              · simp [pipeline_failure, h1, h2, hs, hw, h4, h5] at he
              · cases h3 : env.diagRes sd (some w) with
                | ok d => simp [process_patient_query, h1, h2, hs, hw, h3, h4, h5]
                | error e3 => simp [process_patient_query, h1, h2, hs, hw, h3, h4, h5]

/-- Witness for C3: a run whose risk step raises returns the failure record
with the error text, fresh session id and elapsed time, and increments the
mis-triage counter from 0 to 1; a run with no step failure succeeds. -/
theorem pipeline_boundary_witness :
    (process_patient_query demoEnvRiskFail "p" "headache" "" SysState.init).1 =
      { success := false
        error := some "boom"
        session_id := sessionId "p" demoEnvRiskFail.endTime
        processing_time := round2 (demoEnvRiskFail.endTime - demoEnvRiskFail.startTime)
        analysis := none
        bias_detected := none } ∧
    (process_patient_query demoEnvRiskFail "p" "headache" ""
      SysState.init).2.metrics.mistriage_count = 1 ∧
    (process_patient_query demoEnvOverride "p" "chest pain" "" SysState.init).1.success
      = true := by
  have h := (pipeline_boundary demoEnvRiskFail "p" "headache" "" SysState.init).1 "boom" rfl
  exact ⟨h.1, h.2.trans (by decide),
    (pipeline_boundary demoEnvOverride "p" "chest pain" "" SysState.init).2 rfl⟩
